import Mathlib

/-
Shallow embedding of the market-briefing pipeline:
validators (`market_crawler_strategy._is_valid_crawled_data`,
`market_data_strategy._is_valid_realtime_data`), the fallback strategy
(`market_data_strategy.get_market_data_with_strategy`), the snapshot store
(`market_data_storage`), the briefing generator
(`market_briefing_generator`), the publisher (`threads_api_client`), and
the wall-clock slot selection (`auto_briefing_system`).
Python numbers are modelled as rationals; a raised exception is an
`Except.error`.
-/

set_option autoImplicit false
set_option maxHeartbeats 1000000

namespace MarketSys

universe u

/-- A Python value that can appear as a price inside an `indices` dict:
a number, or a malformed non-numeric value (modelled as a string, which is
what a broken JSON field would be). -/
inductive PyVal where
  | num (q : ℚ)
  | str (s : String)
deriving DecidableEq, Repr

/-- The shape of a dict handed to the validators: `empty` is a falsy dict
(`{}` or `None`, for which Python's `if not data` fires); `mk o` is a
non-empty dict whose `indices` member is `o` (`none` when the key is
missing, in which case `data.get('indices', {})` yields `{}`). -/
inductive MData where
  | empty
  | mk (indices : Option (List (String × PyVal)))
deriving DecidableEq, Repr

/-- First-match association-list lookup, modelling Python dict access
(keys are unique in an actual dict, so first match is the match). -/
def alookup {κ : Type} {α : Type u} [DecidableEq κ] (k : κ) :
    List (κ × α) → Option α
  | [] => none
  | (k2, v) :: rest => if k2 = k then some v else alookup k rest

/-- Embeds the loop `for price in indices.values(): if price <= 0: return
False` followed by `return True`.  Comparing a non-numeric price with `0`
raises `TypeError` in Python, modelled as `Except.error`. -/
def pricesAllPositive : List (String × PyVal) → Except Unit Bool
  | [] => Except.ok true
  | (_, PyVal.num q) :: rest =>
      if q ≤ 0 then Except.ok false else pricesAllPositive rest
  | (_, PyVal.str _) :: _ => Except.error ()

/-- Embedding of `MarketCrawlerStrategy._is_valid_crawled_data`
(src/market_crawler_strategy.py, lines 194-220): empty data is invalid,
missing or empty `indices` is invalid, fewer than 2 indices is invalid,
then every price must be `> 0` (a non-numeric price raises). -/
def is_valid_crawled_data (data : MData) : Except Unit Bool :=
  match data with
  | MData.empty => Except.ok false
  | MData.mk o =>
      let indices := o.getD []
      if indices = [] then Except.ok false
      else if indices.length < 2 then Except.ok false
      else pricesAllPositive indices

/-- Embeds `any(indices.get(index, 0) > 0 for index in names if index in
indices)`: walk `names` in order, skip absent keys, short-circuit on the
first positive price; comparing a non-numeric price raises. -/
def anyPositiveOf (names : List String) (indices : List (String × PyVal)) :
    Except Unit Bool :=
  match names with
  | [] => Except.ok false
  | n :: rest =>
      match alookup n indices with
      | none => anyPositiveOf rest indices
      | some (PyVal.num q) =>
          if 0 < q then Except.ok true else anyPositiveOf rest indices
      | some (PyVal.str _) => Except.error ()

def overseasIndexNames : List String := ["S&P500", "NASDAQ", "DOW"]

def domesticIndexNames : List String := ["KOSPI", "KOSDAQ"]

/-- Embedding of `MarketDataStrategy._is_valid_realtime_data`
(src/market_data_strategy.py, lines 127-154): empty data or empty
`indices` is invalid; otherwise valid iff some overseas index or some
domestic index has a positive price.  Python computes `overseas_valid`
first and `domestic_valid` second, so a raise in either propagates. -/
def is_valid_realtime_data (data : MData) : Except Unit Bool :=
  match data with
  | MData.empty => Except.ok false
  | MData.mk o =>
      let indices := o.getD []
      if indices = [] then Except.ok false
      else do
        let overseasValid ← anyPositiveOf overseasIndexNames indices
        let domesticValid ← anyPositiveOf domesticIndexNames indices
        Except.ok (overseasValid || domesticValid)

/-- A dict whose `indices` member holds only numeric prices, as every
in-repo producer (`kis_api_client.get_market_data` wraps each value in
`float(...)`) builds it. -/
def numericData (es : List (String × ℚ)) : MData :=
  MData.mk (some (es.map fun p => (p.1, PyVal.num p.2)))

/-- A market snapshot as the strategy layer handles it: the dict built by
`kis_api_client.get_market_data` or read back from storage, restricted to
the fields the strategy and the claims touch.  Prices are numeric because
every in-repo producer wraps them in `float(...)`. -/
structure Snap where
  indices : List (String × ℚ)
  changes : List (String × ℚ)
  source : String
  timestamp : String
deriving DecidableEq, Repr

/-- The environment a single `get_market_data_with_strategy` call runs in:
the outcomes of the three storage lookups (per data type) and of the live
KIS fetch.  `Except.error` models a raised exception inside the
collaborator; `Option` models a `None` (or falsy) result. -/
structure StrategyEnv where
  loadToday : String → Except Unit (Option Snap)
  loadYesterday : String → Except Unit (Option Snap)
  latest : String → Except Unit (Option Snap)
  realtime : Except Unit Snap
  now : String

/-- The time-slot to data-type mapping of
`MarketDataStrategy._get_stored_data_for_timeslot`: `12:00` maps to
`midday`; the four other slots, and any unknown slot via `.get`'s
default, map to `closing`. -/
def data_type_mapping (slot : String) : String :=
  if slot = "12:00" then "midday" else "closing"

/-- Embedding of `MarketDataStrategy._get_stored_data_for_timeslot`
(src/market_data_strategy.py, lines 82-117): try today's record, then
yesterday's, then the latest of that type; the surrounding
`try/except` turns any raised error into `None`. -/
def get_stored_data_for_timeslot (env : StrategyEnv) (slot : String) :
    Option Snap :=
  let dt := data_type_mapping slot
  match env.loadToday dt with
  | Except.error _ => none
  | Except.ok (some d) => some d
  | Except.ok none =>
      match env.loadYesterday dt with
      | Except.error _ => none
      | Except.ok (some d) => some d
      | Except.ok none =>
          match env.latest dt with
          | Except.error _ => none
          | Except.ok r => r

/-- Embedding of `MarketDataStrategy._get_realtime_data`: a raise inside
`kis_client.get_market_data()` is caught and `{}` (modelled `none`) is
returned. -/
def get_realtime_data (env : StrategyEnv) : Option Snap :=
  match env.realtime with
  | Except.error _ => none
  | Except.ok d => some d

/-- `_is_valid_realtime_data` as applied inside the strategy: the argument
is `{}` (falsy) after a caught fetch error, or the numeric snapshot dict
the KIS client returned. -/
def is_valid_realtime_snap (rt : Option Snap) : Except Unit Bool :=
  match rt with
  | none => is_valid_realtime_data MData.empty
  | some d => is_valid_realtime_data (numericData d.indices)

/-- The per-slot `indices` table of `MarketDataStrategy._get_backup_data`
(src/market_data_strategy.py, lines 156-248); an unknown slot falls back
to the `07:00` entry via `backup_data.get(time_slot,
backup_data["07:00"])`. -/
def backup_indices (slot : String) : List (String × ℚ) :=
  if slot = "08:00" then
    [("KOSPI", 3227.68), ("KOSDAQ", 805.81), ("S&P500", 5500.12),
     ("NASDAQ", 17900.45), ("DOW", 38500.00)]
  else if slot = "12:00" then
    [("KOSPI", 3230.00), ("KOSDAQ", 808.00), ("S&P500", 5500.12),
     ("NASDAQ", 17900.45), ("DOW", 38500.00)]
  else if slot = "15:40" then
    [("KOSPI", 3225.00), ("KOSDAQ", 804.00), ("S&P500", 5500.12),
     ("NASDAQ", 17900.45), ("DOW", 38500.00)]
  else
    [("S&P500", 5500.12), ("NASDAQ", 17900.45), ("DOW", 38500.00),
     ("KOSPI", 3227.68), ("KOSDAQ", 805.81)]

/-- The per-slot `changes` table of `MarketDataStrategy._get_backup_data`. -/
def backup_changes (slot : String) : List (String × ℚ) :=
  if slot = "08:00" then
    [("KOSPI", 29.54), ("KOSDAQ", 2.32), ("S&P500", 44.23),
     ("NASDAQ", 195.67), ("DOW", 115.50)]
  else if slot = "12:00" then
    [("KOSPI", 32.00), ("KOSDAQ", 4.50), ("S&P500", 44.23),
     ("NASDAQ", 195.67), ("DOW", 115.50)]
  else if slot = "15:40" then
    [("KOSPI", 27.00), ("KOSDAQ", 0.50), ("S&P500", 44.23),
     ("NASDAQ", 195.67), ("DOW", 115.50)]
  else
    [("S&P500", 44.23), ("NASDAQ", 195.67), ("DOW", 115.50),
     ("KOSPI", 29.54), ("KOSDAQ", 2.32)]

/-- Embedding of `MarketDataStrategy._get_backup_data`: the per-slot
table, tagged `source = "backup_data_" + time_slot` and stamped with the
current time. -/
def get_backup_data (env : StrategyEnv) (slot : String) : Snap :=
  { indices := backup_indices slot
    changes := backup_changes slot
    source := "backup_data_" ++ slot
    timestamp := env.now }

/-- Embedding of `MarketDataStrategy.get_market_data_with_strategy`
(src/market_data_strategy.py, lines 53-80).  The `Bool` in the result
records whether the live tier ran (the stored tier returns before the KIS
client is ever invoked).  The codomain is `Except` because
`_is_valid_realtime_data` is called outside any `try/except`, so a raise
inside it would propagate to the caller. -/
def get_market_data_with_strategy (env : StrategyEnv) (slot : String) :
    Except Unit (Snap × Bool) :=
  match get_stored_data_for_timeslot env slot with
  | some d => Except.ok (d, false)
  | none => do
      let rt := get_realtime_data env
      let valid ← is_valid_realtime_snap rt
      match rt, valid with
      | some d, true => Except.ok (d, true)
      | _, _ => Except.ok (get_backup_data env slot, true)

/-- A record as `MarketDataStorage.save_market_data` writes it to
`{date}_{data_type}.json`: the snapshot plus date, type and collection
time metadata. -/
structure StoredRecord where
  date : String
  data_type : String
  collected_at : String
  market_data : Snap
deriving DecidableEq, Repr

/-- The storage directory: one record per `(date, data_type)` file name.
Newest writes sit in front; `alookup` finds the first (newest) record for
a key, so writing a key again shadows (overwrites) the old file. -/
abbrev Store := List ((String × String) × StoredRecord)

/-- Writing the file `{date}_{data_type}.json`. -/
def storePut (key : String × String) (r : StoredRecord) (files : Store) :
    Store :=
  (key, r) :: files

/-- The ambient state of one storage call: today's date, the wall clock,
and whether the underlying file I/O raises. -/
structure StorageCtx where
  today : String
  now : String
  ioFail : Bool

/-- Embedding of `MarketDataStorage.save_market_data`
(src/market_data_storage.py, lines 24-56): write keyed by
`(today, data_type)` with metadata; any I/O error is caught and reported
as `false` with the store unchanged. -/
def save_market_data (ctx : StorageCtx) (st : Store) (market_data : Snap)
    (data_type : String) : Bool × Store :=
  if ctx.ioFail then (false, st)
  else
    (true,
     storePut (ctx.today, data_type)
       { date := ctx.today, data_type := data_type, collected_at := ctx.now
         market_data := market_data } st)

/-- Embedding of `MarketDataStorage.load_market_data`
(src/market_data_storage.py, lines 58-88): `target_date` defaults to
today; a missing file, or any caught I/O error, yields `None`; otherwise
the record's `market_data` member is returned. -/
def load_market_data (ctx : StorageCtx) (st : Store)
    (target_date : Option String) (data_type : String) : Option Snap :=
  if ctx.ioFail then none
  else
    (alookup (target_date.getD ctx.today, data_type) st).map
      StoredRecord.market_data

/-- Python truthiness of an optional string: `None` and `""` are falsy,
which is what `if not self.access_token or not self.user_id` tests. -/
def truthyOpt : Option String → Bool
  | none => false
  | some s => s != ""

/-- The environment of one Threads publish: the configured credentials
and the outcomes of the two remote calls (`none` models a non-200
response or a raised request error, both of which the code maps to
`None`). -/
structure ThreadsEnv where
  access_token : Option String
  user_id : Option String
  container_id : Option String
  publish_id : Option String

/-- The result dict of a post: `_simulate_post` fills `id`, `success`,
`content` and a fixed `timestamp`; a real post fills `id`,
`container_id`, `success` and `content`. -/
structure PostResult where
  id : String
  container_id : Option String
  success : Bool
  content : String
  timestamp : Option String
deriving DecidableEq, Repr

/-- Embedding of `ThreadsAPIClient._simulate_post`
(src/threads_api_client.py, lines 159-172). -/
def simulate_post (content : String) : PostResult :=
  { id := "simulated_post_id", container_id := none, success := true
    content := content, timestamp := some "2024-01-01T00:00:00Z" }

/-- Embedding of `ThreadsAPIClient.post_thread`
(src/threads_api_client.py, lines 38-87): missing credentials, a failed
container creation, or a failed publish all fall back to the simulated
post; both remote steps succeeding yields the real result. -/
def post_thread (env : ThreadsEnv) (content : String) : PostResult :=
  if !truthyOpt env.access_token || !truthyOpt env.user_id then
    simulate_post content
  else
    match env.container_id with
    | none => simulate_post content
    | some cid =>
        match env.publish_id with
        | none => simulate_post content
        | some pid =>
            { id := pid, container_id := some cid, success := true
              content := content, timestamp := none }

/-- The per-slot emoji metadata of `ThreadsAPIClient.post_briefing`, with
`"📊"` as the `.get` default. -/
def time_metadata (slot : String) : String :=
  if slot = "07:00" then "🌅 미국 마켓 마감"
  else if slot = "08:00" then "🌞 한국시장 오픈"
  else if slot = "12:00" then "☀️ 오전장 마감"
  else if slot = "15:40" then "🌆 한국시장 마감"
  else if slot = "19:00" then "🌙 미국장 프리뷰"
  else "📊"

/-- Embedding of `ThreadsAPIClient.post_briefing`: prefix the content
with the slot metadata, then post. -/
def post_briefing (env : ThreadsEnv) (briefing_content slot : String) :
    PostResult :=
  post_thread env (time_metadata slot ++ " " ++ briefing_content)

/-- One entry of `ThreadsPublisher.post_history`. -/
structure PublishRecord where
  time_slot : String
  topic : String
  content : String
  result : PostResult
  timestamp : String
deriving DecidableEq, Repr

/-- Embedding of `ThreadsPublisher.publish_briefing`
(src/threads_api_client.py, lines 209-240): post, then append exactly one
record (the code stamps the literal `"2024-01-01T00:00:00Z"`); returns
the post result together with the updated history. -/
def publish_briefing (env : ThreadsEnv) (history : List PublishRecord)
    (time_slot topic briefing_content : String) :
    PostResult × List PublishRecord :=
  let result := post_briefing env briefing_content time_slot
  (result,
   history ++
     [{ time_slot := time_slot, topic := topic, content := briefing_content
        result := result, timestamp := "2024-01-01T00:00:00Z" }])

/-- The dict handed to `MarketBriefingGenerator.generate_briefing`,
restricted to the members the five templates read. -/
structure GenData where
  indices : List (String × ℚ)
  changes : List (String × ℚ)
  sectors : List (String × ℚ)
  stocks : List (String × ℚ)
  issues : List String
  events : List String
deriving DecidableEq, Repr

/-- The `BriefingContent` dataclass of
src/market_briefing_generator.py. -/
structure BriefingContent where
  main_content : String
  comments : List String
  hashtags : List String
deriving DecidableEq, Repr

/-- Absolute value of a rational, kept as an explicit conditional so the
kernel can evaluate it. -/
def qabs (q : ℚ) : ℚ := if q < 0 then -q else q

/-- `q * 10 ^ dec` rounded to the nearest integer, ties to even, computed
on the numerator and denominator; this is how Python formats an
exactly-representable decimal at `dec` places. -/
def roundHalfEvenScaled (dec : ℕ) (q : ℚ) : ℤ :=
  let N : ℤ := q.num * Int.ofNat (10 ^ dec)
  let D : ℤ := (q.den : ℤ)
  let f : ℤ := Int.fdiv N D
  let r : ℤ := N - f * D
  if 2 * r < D then f
  else if D < 2 * r then f + 1
  else if f % 2 = 0 then f else f + 1

/-- Left-pad a digit string with zeros up to width `n`. -/
def padZeros (n : ℕ) (s : String) : String :=
  String.mk (List.replicate (n - s.length) '0') ++ s

/-- Insert a comma after every three digits of a reversed digit list;
the fuel argument (the list length at the start) keeps the recursion
structural. -/
def commaRevAux : ℕ → List Char → List Char
  | fuel + 1, a :: b :: c :: d :: rest =>
      a :: b :: c :: ',' :: commaRevAux fuel (d :: rest)
  | _, l => l

/-- Group the digits of an integer string in threes with commas, as
Python's `,` format flag does. -/
def groupDigits (s : String) : String :=
  String.mk (commaRevAux s.data.length s.data.reverse).reverse

/-- Python's `f"{q:,.dec f}"`: absolute value rounded half-even at `dec`
decimals, digits grouped in threes, a leading `-` for negative input. -/
def fmtComma (dec : ℕ) (q : ℚ) : String :=
  let scaled : ℕ := (roundHalfEvenScaled dec (qabs q)).toNat
  let sign := if q < 0 then "-" else ""
  let ip := scaled / 10 ^ dec
  let fp := scaled % 10 ^ dec
  sign ++ groupDigits (toString ip) ++
    (if dec = 0 then "" else "." ++ padZeros dec (toString fp))

/-- Python's `f"{q:+.dec f}"`: like `fmtComma` but always signed and
without digit grouping. -/
def fmtSigned (dec : ℕ) (q : ℚ) : String :=
  let scaled : ℕ := (roundHalfEvenScaled dec (qabs q)).toNat
  let sign := if q < 0 then "-" else "+"
  let ip := scaled / 10 ^ dec
  let fp := scaled % 10 ^ dec
  sign ++ toString ip ++
    (if dec = 0 then "" else "." ++ padZeros dec (toString fp))

/-- The repeated per-index pattern of the templates: when `name` is a
key of `indices`, emit a bullet line with the price and the percentage
change `change / price * 100`, guarded to `0` unless the price is
positive; when the key is absent, emit nothing. -/
def indexLine (label name : String) (dec : ℕ) (d : GenData) : String :=
  match alookup name d.indices with
  | none => ""
  | some p =>
      let pct : ℚ :=
        if 0 < p then (alookup name d.changes).getD 0 / p * 100 else 0
      "• " ++ label ++ " " ++ fmtComma dec p ++ "pt (" ++
        fmtSigned 1 pct ++ "%)\n"

/-- `sorted(es.items(), key=lambda x: abs(x[1]), reverse=True)[:n]`:
stable descending sort by absolute change, then the first `n`. -/
def topMovers (es : List (String × ℚ)) (n : ℕ) : List (String × ℚ) :=
  (es.mergeSort fun a b => decide (|b.2| ≤ |a.2|)).take n

/-- The `• {name} {change:+.1f}%` bullet lines for the top `n` movers. -/
def moverLines (es : List (String × ℚ)) (n : ℕ) : String :=
  String.join
    ((topMovers es n).map fun p => "• " ++ p.1 ++ " " ++
      fmtSigned 1 p.2 ++ "%\n")

/-- `if issues: main += f"• {pre}{issues[0]}\n"`. -/
def issuesLine (pre : String) : List String → String
  | [] => ""
  | x :: _ => "• " ++ pre ++ x ++ "\n"

/-- Embedding of `_generate_us_market_close_briefing` (07:00). -/
def us_market_close_briefing (topic : String) (d : GenData) :
    BriefingContent :=
  let main := "🌅 " ++ topic ++ "\n" ++
    indexLine "S&P500" "S&P500" 2 d ++
    indexLine "나스닥" "NASDAQ" 2 d ++
    indexLine "다우" "DOW" 0 d ++
    moverLines d.stocks 3
  { main_content := main.trim
    comments := ["💡 오늘의 관전포인트",
      "- " ++ d.issues.headD "FOMC 결과 발표" ++ " 후 변동성 확대",
      if d.sectors.any fun p => p.1 == "반도체" || p.1 == "AI" then
        "- 반도체, AI 섹터 랠리 지속"
      else "- 주요 섹터 성과 분화",
      "- 주요 기업 실적 발표 대기"]
    hashtags := ["#미국증시", "#S&P500", "#나스닥", "#글로벌마켓"] }

/-- The `• 미국장 영향` line of the 08:00 template: keyed on `changes`
containing `S&P500`; the guard reads `indices.get('S&P500', 0)` while the
division reads `indices.get('S&P500', 1)`. -/
def usInfluenceLine (d : GenData) : String :=
  match alookup "S&P500" d.changes with
  | none => ""
  | some c =>
      let pct : ℚ :=
        if 0 < (alookup "S&P500" d.indices).getD 0 then
          c / (alookup "S&P500" d.indices).getD 1 * 100
        else 0
      "• 미국장 영향: S&P500 " ++ fmtSigned 1 pct ++ "%\n"

/-- Embedding of `_generate_kr_market_preview_briefing` (08:00). -/
def kr_market_preview_briefing (topic : String) (d : GenData) :
    BriefingContent :=
  let main := "🌞 " ++ topic ++ "\n" ++
    indexLine "전일 코스피" "KOSPI" 2 d ++
    indexLine "전일 코스닥" "KOSDAQ" 2 d ++
    usInfluenceLine d ++
    issuesLine "주요 이슈: " d.issues
  { main_content := main.trim
    comments := ["📋 개장 전 체크리스트", "- 글로벌 증시 동향 체크",
      "- 주요 경제지표 발표 일정", "- 섹터별 투자 포인트"]
    hashtags := ["#한국증시", "#코스피", "#코스닥", "#오늘의시장"] }

/-- Embedding of `_generate_kr_market_midday_briefing` (12:00). -/
def kr_market_midday_briefing (topic : String) (d : GenData) :
    BriefingContent :=
  let main := "☀️ " ++ topic ++ "\n" ++
    indexLine "코스피" "KOSPI" 2 d ++
    indexLine "코스닥" "KOSDAQ" 2 d ++
    moverLines d.sectors 2 ++
    "• 외국인/기관 수급 관심\n"
  { main_content := main.trim
    comments := ["🔍 오후장 관전포인트", "- 변동성 확대 원인 분석",
      "- 외국인/기관 수급 동향", "- 섹터별 성과 전망"]
    hashtags := ["#한국증시", "#오전장", "#시황", "#투자자동향"] }

/-- Embedding of `_generate_kr_market_close_briefing` (15:40,
src/market_briefing_generator.py, lines 183-222). -/
def kr_market_close_briefing (topic : String) (d : GenData) :
    BriefingContent :=
  let main := "🌆 " ++ topic ++ "\n" ++
    indexLine "코스피" "KOSPI" 2 d ++
    indexLine "코스닥" "KOSDAQ" 2 d ++
    moverLines d.sectors 2 ++
    moverLines d.stocks 2
  { main_content := main.trim
    comments := ["📈 내일장 관전포인트", "- 실적발표 예정 기업 체크",
      "- 정책/이벤트 영향 분석", "- 투자 전략 점검"]
    hashtags := ["#한국증시", "#마감", "#일일시황", "#투자전략"] }

/-- Embedding of `_generate_us_market_preview_briefing` (19:00). -/
def us_market_preview_briefing (topic : String) (d : GenData) :
    BriefingContent :=
  let main := "🌙 " ++ topic ++ "\n" ++
    indexLine "S&P500 선물" "S&P500" 2 d ++
    indexLine "나스닥 선물" "NASDAQ" 2 d ++
    issuesLine "글로벌 이슈: " d.issues ++
    issuesLine "발표 예정: " d.events
  { main_content := main.trim
    comments := ["🌃 오늘밤 주목 포인트", "- 주요 경제지표 발표",
      "- 기업 실적 발표 일정", "- 글로벌 이벤트 영향"]
    hashtags := ["#미국증시", "#프리마켓", "#글로벌이슈", "#실적발표"] }

/-- The five supported time-slot labels. -/
def briefing_time_slots : List String :=
  ["07:00", "08:00", "12:00", "15:40", "19:00"]

/-- Embedding of `MarketBriefingGenerator.generate_briefing`
(src/market_briefing_generator.py, lines 38-62): dispatch on the slot,
raising `ValueError` (here `Except.error` with the same message) on any
other label. -/
def generate_briefing (time_slot topic : String) (d : GenData) :
    Except String BriefingContent :=
  if time_slot = "07:00" then Except.ok (us_market_close_briefing topic d)
  else if time_slot = "08:00" then
    Except.ok (kr_market_preview_briefing topic d)
  else if time_slot = "12:00" then
    Except.ok (kr_market_midday_briefing topic d)
  else if time_slot = "15:40" then
    Except.ok (kr_market_close_briefing topic d)
  else if time_slot = "19:00" then
    Except.ok (us_market_preview_briefing topic d)
  else Except.error ("지원하지 않는 시간대: " ++ time_slot)

/-- 09:00 in seconds since midnight. -/
def koreaOpenSec : ℚ := 9 * 3600

/-- 15:30 in seconds since midnight. -/
def koreaCloseSec : ℚ := 15 * 3600 + 30 * 60

/-- 22:30 in seconds since midnight (KST). -/
def usOpenSec : ℚ := 22 * 3600 + 30 * 60

/-- 05:00 in seconds since midnight (KST). -/
def usCloseSec : ℚ := 5 * 3600

/-- 12:00 in seconds since midnight. -/
def noonSec : ℚ := 12 * 3600

/-- Embedding of `AutoBriefingSystem.get_current_briefing_type`
(src/auto_briefing_system.py, lines 62-103); `t` is the wall-clock time
of day in seconds since midnight. -/
def get_current_briefing_type (t : ℚ) : String :=
  if koreaOpenSec ≤ t ∧ t ≤ koreaCloseSec then
    if t < noonSec then "12:00" else "15:40"
  else if usOpenSec ≤ t ∨ t ≤ usCloseSec then
    if usOpenSec ≤ t then "19:00" else "07:00"
  else
    if usCloseSec ≤ t ∧ t < koreaOpenSec then "08:00" else "19:00"

/-- The `indices` the realtime tier delivered: `[]` both for a caught
fetch error (the `{}` result) and for a snapshot with an empty map. -/
def realtime_indices (env : StrategyEnv) : List (String × ℚ) :=
  match get_realtime_data env with
  | none => []
  | some d => d.indices

/-- A stored snapshot with a single index: it fails the strict (at least
3 indices) rule and carries the source tag it was saved with. -/
def c1_snap : Snap :=
  { indices := [("KOSPI", 2500)], changes := [("KOSPI", 10)]
    source := "kis_api_closing", timestamp := "2025-01-01T15:30:00" }

/-- An environment whose stored-snapshot lookup finds `c1_snap` for
today and whose live fetch would raise. -/
def c1_env : StrategyEnv :=
  { loadToday := fun _ => Except.ok (some c1_snap)
    loadYesterday := fun _ => Except.ok none
    latest := fun _ => Except.ok none
    realtime := Except.error ()
    now := "2025-01-02T07:00:00" }

/-- An environment with no stored data at all and a live fetch that
raises (so the caught error yields the empty map). -/
def c2_env : StrategyEnv :=
  { loadToday := fun _ => Except.ok none
    loadYesterday := fun _ => Except.ok none
    latest := fun _ => Except.ok none
    realtime := Except.error ()
    now := "2025-01-02T07:00:00" }

/-- Market data whose KOSPI price is exactly zero. -/
def c6_data : GenData :=
  { indices := [("KOSPI", 0)], changes := [("KOSPI", 12)], sectors := []
    stocks := [], issues := [], events := [] }

/-- A minimal market-data value for exercising the generator dispatch. -/
def c7_data : GenData :=
  { indices := [], changes := [], sectors := [], stocks := [], issues := []
    events := [] }

/-- A storage context for a fixed day with working I/O. -/
def c8_ctx : StorageCtx :=
  { today := "2025-01-02", now := "2025-01-02T15:30:00", ioFail := false }

/-- A snapshot to save. -/
def c8_snap : Snap :=
  { indices := [("KOSPI", 2500), ("KOSDAQ", 800)]
    changes := [("KOSPI", 10), ("KOSDAQ", -2)]
    source := "kis_api", timestamp := "2025-01-02T15:30:00" }

/-- A second snapshot saved under the same key. -/
def c8_snap2 : Snap :=
  { indices := [("KOSPI", 2510)], changes := [("KOSPI", 20)]
    source := "kis_api", timestamp := "2025-01-02T15:31:00" }

/-- A publisher environment with no configured access token. -/
def c9_env : ThreadsEnv :=
  { access_token := none, user_id := some "user1"
    container_id := some "c1", publish_id := some "p1" }

theorem alookup_map_num (n : String) (es : List (String × ℚ)) :
    alookup n (es.map fun p => (p.1, PyVal.num p.2)) =
      (alookup n es).map PyVal.num := by
  induction es with
  | nil => rfl
  | cons h t ih =>
      by_cases hk : h.1 = n <;> simp [alookup, hk, ih]

theorem pricesAllPositive_numeric (es : List (String × ℚ)) :
    ∃ b, pricesAllPositive (es.map fun p => (p.1, PyVal.num p.2)) =
      Except.ok b := by
  induction es with
  | nil => exact ⟨true, rfl⟩
  | cons h t ih =>
      by_cases hq : h.2 ≤ 0
      · exact ⟨false, by simp [pricesAllPositive, hq]⟩
      · obtain ⟨b, hb⟩ := ih
        exact ⟨b, by simp [pricesAllPositive, hq, hb]⟩

theorem anyPositiveOf_numeric (names : List String)
    (es : List (String × ℚ)) :
    ∃ b, anyPositiveOf names (es.map fun p => (p.1, PyVal.num p.2)) =
      Except.ok b := by
  induction names with
  | nil => exact ⟨false, rfl⟩
  | cons n rest ih =>
      obtain ⟨b, hb⟩ := ih
      rcases hl : alookup n es with _ | q
      · exact ⟨b, by simp [anyPositiveOf, alookup_map_num, hl, hb]⟩
      · by_cases hq : 0 < q
        · exact ⟨true, by simp [anyPositiveOf, alookup_map_num, hl, hq]⟩
        · exact ⟨b, by simp [anyPositiveOf, alookup_map_num, hl, hq, hb]⟩

theorem is_valid_realtime_numeric (es : List (String × ℚ)) :
    ∃ b, is_valid_realtime_data (numericData es) = Except.ok b := by
  by_cases he : es = []
  · exact ⟨false, by simp [is_valid_realtime_data, numericData, he]⟩
  · obtain ⟨b1, h1⟩ := anyPositiveOf_numeric overseasIndexNames es
    obtain ⟨b2, h2⟩ := anyPositiveOf_numeric domesticIndexNames es
    refine ⟨b1 || b2, ?_⟩
    have hne : es.map (fun p => (p.1, PyVal.num p.2)) ≠ [] := by
      simpa using he
    simp [is_valid_realtime_data, numericData, hne, h1, h2, Bind.bind,
      Except.bind]

theorem is_valid_crawled_numeric (es : List (String × ℚ)) :
    ∃ b, is_valid_crawled_data (numericData es) = Except.ok b := by
  by_cases he : es = []
  · exact ⟨false, by simp [is_valid_crawled_data, numericData, he]⟩
  · have hne : es.map (fun p => (p.1, PyVal.num p.2)) ≠ [] := by
      simpa using he
    by_cases hlen : es.length < 2
    · refine ⟨false, ?_⟩
      simp [is_valid_crawled_data, numericData, hne, hlen]
    · obtain ⟨b, hb⟩ := pricesAllPositive_numeric es
      refine ⟨b, ?_⟩
      simp [is_valid_crawled_data, numericData, hne, hlen, hb]

theorem is_valid_realtime_snap_ok (rt : Option Snap) :
    ∃ b, is_valid_realtime_snap rt = Except.ok b := by
  cases rt with
  | none => exact ⟨false, rfl⟩
  | some d => exact is_valid_realtime_numeric d.indices

theorem fmtComma_two_zero : fmtComma 2 0 = "0.00" := by decide

theorem fmtSigned_one_zero : fmtSigned 1 0 = "+0.0" := by decide

/-- C1 (amended): for every time_slot, whenever the stored-snapshot
lookup yields a snapshot, `get_market_data_with_strategy` returns exactly
that snapshot from tier 1 without invoking any live adapter; no strict
(at least 3 indices) validation is applied and the snapshot keeps its
stored source tag instead of being retagged `"stored"`. -/
theorem claimC1_stored_tier_returned_unvalidated
    (env : StrategyEnv) (slot : String) (d : Snap)
    (h : get_stored_data_for_timeslot env slot = some d) :
    get_market_data_with_strategy env slot = Except.ok (d, false) := by
  unfold get_market_data_with_strategy
  rw [h]

/-- C1 witness: the one-index stored snapshot of `c1_env` is returned
from tier 1 untouched. -/
theorem claimC1_witness :
    get_market_data_with_strategy c1_env "07:00" =
      Except.ok (c1_snap, false) :=
  claimC1_stored_tier_returned_unvalidated c1_env "07:00" c1_snap rfl

/-- C1 counterexample: a stored snapshot with a single index — failing
the claimed strict (at least 3 indices) rule — is returned from tier 1,
and its source tag is not `"stored"`. -/
theorem claimC1_counterexample :
    get_market_data_with_strategy c1_env "07:00" =
      Except.ok (c1_snap, false) ∧
    c1_snap.indices.length < 3 ∧ c1_snap.source ≠ "stored" :=
  ⟨rfl, by decide, by decide⟩

/-- C2 (amended): for every time_slot, if the stored lookup yields
nothing and the live tier delivers an empty indices map, the strategy
returns the backup generator's output for that slot, tagged
`source = "backup_data_" + time_slot` (not `"synthetic"`). -/
theorem claimC2_backup_tier_tag
    (env : StrategyEnv) (slot : String)
    (h1 : get_stored_data_for_timeslot env slot = none)
    (h2 : realtime_indices env = []) :
    get_market_data_with_strategy env slot =
      Except.ok (get_backup_data env slot, true) ∧
    (get_backup_data env slot).source = "backup_data_" ++ slot := by
  refine ⟨?_, rfl⟩
  unfold get_market_data_with_strategy
  rw [h1]
  cases hrt : get_realtime_data env with
  | none =>
      simp [hrt, is_valid_realtime_snap, is_valid_realtime_data,
        Bind.bind, Except.bind]
  | some d =>
      have hi : d.indices = [] := by
        rw [realtime_indices, hrt] at h2
        exact h2
      simp [hrt, is_valid_realtime_snap, is_valid_realtime_data,
        numericData, hi, Bind.bind, Except.bind]

/-- C2 witness: with nothing stored and a raising live fetch, the
strategy returns the tagged backup data. -/
theorem claimC2_witness :
    get_market_data_with_strategy c2_env "07:00" =
      Except.ok (get_backup_data c2_env "07:00", true) ∧
    (get_backup_data c2_env "07:00").source = "backup_data_" ++ "07:00" :=
  claimC2_backup_tier_tag c2_env "07:00" rfl rfl

/-- C2 counterexample: the tier-3 result's source tag is
`"backup_data_07:00"`, not `"synthetic"` as claimed. -/
theorem claimC2_counterexample :
    get_market_data_with_strategy c2_env "07:00" =
      Except.ok (get_backup_data c2_env "07:00", true) ∧
    (get_backup_data c2_env "07:00").source = "backup_data_07:00" ∧
    (get_backup_data c2_env "07:00").source ≠ "synthetic" :=
  ⟨rfl, rfl, by decide⟩

/-- C3: `get_market_data_with_strategy` is total — for every environment
(any stored-lookup outcome, any live-fetch outcome, raising or not) and
every time_slot it returns some snapshot and never an error. -/
theorem claimC3_strategy_total (env : StrategyEnv) (slot : String) :
    ∃ r, get_market_data_with_strategy env slot = Except.ok r := by
  unfold get_market_data_with_strategy
  cases h : get_stored_data_for_timeslot env slot with
  | some d => exact ⟨(d, false), rfl⟩
  | none =>
      obtain ⟨b, hb⟩ := is_valid_realtime_snap_ok (get_realtime_data env)
      cases hrt : get_realtime_data env with
      | none =>
          rw [hrt] at hb
          cases b with
          | false =>
              exact ⟨(get_backup_data env slot, true),
                by simp [hrt, hb, Bind.bind, Except.bind]⟩
          | true =>
              exact ⟨(get_backup_data env slot, true),
                by simp [hrt, hb, Bind.bind, Except.bind]⟩
      | some d =>
          rw [hrt] at hb
          cases b with
          | false =>
              exact ⟨(get_backup_data env slot, true),
                by simp [hrt, hb, Bind.bind, Except.bind]⟩
          | true =>
              exact ⟨(d, true), by simp [hrt, hb, Bind.bind, Except.bind]⟩

theorem pricesAllPositive_nonpos (es : List (String × ℚ))
    (h : ∃ p ∈ es, p.2 ≤ 0) :
    pricesAllPositive (es.map fun p => (p.1, PyVal.num p.2)) =
      Except.ok false := by
  induction es with
  | nil => simp at h
  | cons hd t ih =>
      by_cases hq : hd.2 ≤ 0
      · simp [pricesAllPositive, hq]
      · obtain ⟨p, hp, hple⟩ := h
        rcases List.mem_cons.mp hp with hp | hp
        · exact absurd (hp ▸ hple) hq
        · simp [pricesAllPositive, hq, ih ⟨p, hp, hple⟩]

/-- C4: for the live-data validator `_is_valid_crawled_data` on a map of
numeric prices: an empty map is invalid, fewer than 2 indices is
invalid, and any price at most 0 makes the map invalid. -/
theorem claimC4_crawled_validator_rules (es : List (String × ℚ)) :
    (es = [] →
      is_valid_crawled_data (numericData es) = Except.ok false) ∧
    (es.length < 2 →
      is_valid_crawled_data (numericData es) = Except.ok false) ∧
    ((∃ p ∈ es, p.2 ≤ 0) →
      is_valid_crawled_data (numericData es) = Except.ok false) := by
  refine ⟨?_, ?_, ?_⟩
  · intro he
    simp [is_valid_crawled_data, numericData, he]
  · intro hlen
    by_cases he : es = []
    · simp [is_valid_crawled_data, numericData, he]
    · have hne : es.map (fun p => (p.1, PyVal.num p.2)) ≠ [] := by
        simpa using he
      simp [is_valid_crawled_data, numericData, hne, hlen]
  · intro hex
    by_cases he : es = []
    · simp [is_valid_crawled_data, numericData, he]
    · have hne : es.map (fun p => (p.1, PyVal.num p.2)) ≠ [] := by
        simpa using he
      by_cases hlen : es.length < 2
      · simp [is_valid_crawled_data, numericData, hne, hlen]
      · simp [is_valid_crawled_data, numericData, hne, hlen,
          pricesAllPositive_nonpos es hex]

/-- C4 witness: the empty map, a one-index map, and a two-index map with
a non-positive price are each judged invalid. -/
theorem claimC4_witness :
    is_valid_crawled_data (numericData []) = Except.ok false ∧
    is_valid_crawled_data (numericData [("KOSPI", 2500)]) =
      Except.ok false ∧
    is_valid_crawled_data (numericData [("KOSPI", -1), ("KOSDAQ", 800)]) =
      Except.ok false :=
  ⟨(claimC4_crawled_validator_rules []).1 rfl,
   (claimC4_crawled_validator_rules [("KOSPI", 2500)]).2.1 (by decide),
   (claimC4_crawled_validator_rules [("KOSPI", -1), ("KOSDAQ", 800)]).2.2
     ⟨("KOSPI", -1), by simp, by norm_num⟩⟩

/-- C5 (amended): both validators return a boolean, never raising, on
every input whose prices are numeric; a missing `indices` member or an
empty input is treated as invalid.  (A non-numeric price, by contrast,
raises — see the counterexample.) -/
theorem claimC5_validators_total_on_numeric (es : List (String × ℚ)) :
    (∃ b, is_valid_crawled_data (numericData es) = Except.ok b) ∧
    (∃ b, is_valid_realtime_data (numericData es) = Except.ok b) ∧
    is_valid_crawled_data (MData.mk none) = Except.ok false ∧
    is_valid_realtime_data (MData.mk none) = Except.ok false ∧
    is_valid_crawled_data MData.empty = Except.ok false ∧
    is_valid_realtime_data MData.empty = Except.ok false :=
  ⟨is_valid_crawled_numeric es, is_valid_realtime_numeric es,
   rfl, rfl, rfl, rfl⟩

/-- C5 counterexample: a non-numeric price makes both validators raise
(`price <= 0` and `... > 0` are `TypeError`s on a string in Python),
refuting the claim that they never raise on malformed input. -/
theorem claimC5_counterexample :
    is_valid_crawled_data
        (MData.mk (some [("KOSPI", PyVal.str "N/A"),
          ("KOSDAQ", PyVal.num 800)])) = Except.error () ∧
    is_valid_realtime_data
        (MData.mk (some [("KOSPI", PyVal.str "N/A")])) =
      Except.error () :=
  ⟨rfl, rfl⟩

/-- C6: in the 15:40 close template, an index entry whose price is 0 is
guarded to a 0 percent change: the generated KOSPI line reads
`• 코스피 0.00pt (+0.0%)` inside the briefing text, with no division
error. -/
theorem claimC6_pct_guard_zero_price (topic : String) (d : GenData)
    (h : alookup "KOSPI" d.indices = some 0) :
    indexLine "코스피" "KOSPI" 2 d = "• 코스피 0.00pt (+0.0%)\n" ∧
    (kr_market_close_briefing topic d).main_content =
      ("🌆 " ++ topic ++ "\n" ++ "• 코스피 0.00pt (+0.0%)\n" ++
        indexLine "코스닥" "KOSDAQ" 2 d ++ moverLines d.sectors 2 ++
        moverLines d.stocks 2).trim := by
  have hline : indexLine "코스피" "KOSPI" 2 d =
      "• 코스피 0.00pt (+0.0%)\n" := by
    simp only [indexLine, h, lt_irrefl, if_false, fmtComma_two_zero,
      fmtSigned_one_zero]
    rfl
  exact ⟨hline, by simp only [kr_market_close_briefing, hline]⟩

/-- C6 witness: concrete data whose KOSPI price is 0 (and change 12)
produces the guarded `(+0.0%)` line. -/
theorem claimC6_witness :
    indexLine "코스피" "KOSPI" 2 c6_data = "• 코스피 0.00pt (+0.0%)\n" ∧
    (kr_market_close_briefing "한국시장 마감 요약" c6_data).main_content =
      ("🌆 " ++ "한국시장 마감 요약" ++ "\n" ++
        "• 코스피 0.00pt (+0.0%)\n" ++
        indexLine "코스닥" "KOSDAQ" 2 c6_data ++
        moverLines c6_data.sectors 2 ++ moverLines c6_data.stocks 2).trim :=
  claimC6_pct_guard_zero_price "한국시장 마감 요약" c6_data rfl

/-- C7: `generate_briefing` raises the invalid-time-slot error exactly
outside the five fixed labels, and dispatches to a template (returning a
briefing) on each of the five. -/
theorem claimC7_generate_briefing_dispatch (slot topic : String)
    (d : GenData) :
    (slot ∉ briefing_time_slots →
      generate_briefing slot topic d =
        Except.error ("지원하지 않는 시간대: " ++ slot)) ∧
    (slot ∈ briefing_time_slots →
      ∃ b, generate_briefing slot topic d = Except.ok b) := by
  constructor
  · intro hn
    simp only [briefing_time_slots, List.mem_cons, List.not_mem_nil,
      or_false, not_or] at hn
    obtain ⟨h1, h2, h3, h4, h5⟩ := hn
    simp [generate_briefing, h1, h2, h3, h4, h5]
  · intro hm
    simp only [briefing_time_slots, List.mem_cons, List.not_mem_nil,
      or_false] at hm
    rcases hm with h | h | h | h | h <;> subst h <;>
      exact ⟨_, rfl⟩

/-- C7 witness: the label `13:00` raises; the label `15:40` yields a
briefing. -/
theorem claimC7_witness :
    generate_briefing "13:00" "시장 브리핑" c7_data =
      Except.error ("지원하지 않는 시간대: " ++ "13:00") ∧
    ∃ b, generate_briefing "15:40" "한국시장 마감 요약" c7_data =
      Except.ok b :=
  ⟨(claimC7_generate_briefing_dispatch "13:00" "시장 브리핑" c7_data).1
      (by decide),
   (claimC7_generate_briefing_dispatch "15:40" "한국시장 마감 요약"
      c7_data).2 (by decide)⟩

/-- C8: a successful `save_market_data(snapshot, "closing")` followed by
`load_market_data(data_type="closing")` on the same day returns a
snapshot with identical `indices` and `changes`; a second save under the
same key overwrites the first. -/
theorem claimC8_save_load_roundtrip (ctx : StorageCtx) (st : Store)
    (s1 s2 : Snap)
    (h : (save_market_data ctx st s1 "closing").1 = true) :
    (∃ r, load_market_data ctx (save_market_data ctx st s1 "closing").2
        none "closing" = some r ∧
      r.indices = s1.indices ∧ r.changes = s1.changes) ∧
    load_market_data ctx
      (save_market_data ctx (save_market_data ctx st s1 "closing").2 s2
        "closing").2 none "closing" = some s2 := by
  have hio : ctx.ioFail = false := by
    by_contra hc
    rw [Bool.not_eq_false] at hc
    simp [save_market_data, hc] at h
  constructor
  · exact ⟨s1,
      by simp [save_market_data, load_market_data, storePut, alookup, hio],
      rfl, rfl⟩
  · simp [save_market_data, load_market_data, storePut, alookup, hio]

/-- C8 witness: concrete round trip and overwrite on an empty store. -/
theorem claimC8_witness :
    (∃ r, load_market_data c8_ctx
        (save_market_data c8_ctx [] c8_snap "closing").2 none "closing" =
          some r ∧
      r.indices = c8_snap.indices ∧ r.changes = c8_snap.changes) ∧
    load_market_data c8_ctx
      (save_market_data c8_ctx
        (save_market_data c8_ctx [] c8_snap "closing").2 c8_snap2
        "closing").2 none "closing" = some c8_snap2 :=
  claimC8_save_load_roundtrip c8_ctx [] c8_snap c8_snap2 rfl

/-- C9: with no configured access token (or no user id), the publisher
returns a simulated success with the placeholder post id and appends
exactly one record — carrying time_slot, topic, content, result and
timestamp — to the history. -/
theorem claimC9_simulated_publish (env : ThreadsEnv)
    (history : List PublishRecord) (slot topic content : String)
    (h : truthyOpt env.access_token = false ∨
      truthyOpt env.user_id = false) :
    (publish_briefing env history slot topic content).1.success = true ∧
    (publish_briefing env history slot topic content).1.id =
      "simulated_post_id" ∧
    (publish_briefing env history slot topic content).2 =
      history ++
        [{ time_slot := slot, topic := topic, content := content
           result := (publish_briefing env history slot topic content).1
           timestamp := "2024-01-01T00:00:00Z" }] := by
  have hpost : post_briefing env content slot =
      simulate_post (time_metadata slot ++ " " ++ content) := by
    unfold post_briefing post_thread
    rcases h with h | h <;> simp [h]
  refine ⟨?_, ?_, ?_⟩ <;>
    simp [publish_briefing, hpost, simulate_post]

/-- C9 witness: a tokenless environment publishing one briefing yields
the simulated result and a single history record. -/
theorem claimC9_witness :
    (publish_briefing c9_env [] "07:00" "미국 증시 마감 요약"
      "briefing").1.success = true ∧
    (publish_briefing c9_env [] "07:00" "미국 증시 마감 요약"
      "briefing").1.id = "simulated_post_id" ∧
    (publish_briefing c9_env [] "07:00" "미국 증시 마감 요약"
      "briefing").2 =
      [] ++
        [{ time_slot := "07:00", topic := "미국 증시 마감 요약"
           content := "briefing"
           result := (publish_briefing c9_env [] "07:00"
             "미국 증시 마감 요약" "briefing").1
           timestamp := "2024-01-01T00:00:00Z" }] :=
  claimC9_simulated_publish c9_env [] "07:00" "미국 증시 마감 요약"
    "briefing" (Or.inl rfl)

/-- C10: for every wall-clock time of day, the automatic slot selection
returns one of the five fixed labels, and the briefing generator accepts
that label without the invalid-time-slot error. -/
theorem claimC10_current_type_supported (t : ℚ) (topic : String)
    (d : GenData) :
    get_current_briefing_type t ∈ briefing_time_slots ∧
    ∃ b, generate_briefing (get_current_briefing_type t) topic d =
      Except.ok b := by
  unfold get_current_briefing_type
  split_ifs <;> exact ⟨by decide, _, rfl⟩

end MarketSys
